import Mathlib

/-!
Verification of the request-serving core of `md-http` (`main.go`).

The Go program renders a markdown file to HTML once at startup, computes
`hashString := fmt.Sprintf("%x", sha256.Sum256(htmlContent))`, registers
handlers on `http.DefaultServeMux` for `/healthz`, `/favicon.ico`,
optionally `/default.css`, and `/`, and wraps every request in a
`responseRecorder` that records the final status code and bytes written.

The embedding below models:
  * bytes as `List Nat` (each value reduced mod 256 where it matters);
  * the `http.ResponseWriter` as a state `RW` (header map, optional
    status, body bytes) with the net/http semantics that the first
    `Write` implies `WriteHeader(200)` and a second `WriteHeader` is
    ignored as superfluous;
  * each registered Go handler as a function from the request to the
    list of writer operations it performs (`HOp`), translated
    line-by-line from `main.go`;
  * `http.ServeMux` dispatch over the registered patterns: for a
    non-CONNECT request whose path is not in canonical form the mux
    answers with a 301 redirect to the cleaned path (`cleanPath`)
    before any handler runs; otherwise the pattern `/` is a rooted
    subtree that matches every path not claimed by a longer registered
    pattern;
  * the `responseRecorder` wrapper as a fold that threads the inner
    writer state together with the recorded `Written`/`StatusCode`;
  * `sha256.Sum256` and the `%x` hex encoding, implemented in full;
  * the `parse`/`main` error flow for configuration errors.
-/

/-- A request as seen by a handler: method, URL path, and headers.
Headers are an association list; `Get` returns the first value for the
key, or `""` when absent, mirroring `net/http.Header.Get`. -/
structure Request where
  method : String
  path : String
  headers : List (String × String)
deriving Repr, DecidableEq

/-- `net/http.Header.Get`: first value for the key, `""` if absent. -/
def Request.get (req : Request) (k : String) : String :=
  match req.headers.find? (fun p => p.1 = k) with
  | some p => p.2
  | none => ""

/-- `Header().Set(k, v)` on the header association list: replace every
entry for `k`, or append when absent. -/
def setHeaderList (hs : List (String × String)) (k v : String) : List (String × String) :=
  if hs.any (fun p => p.1 = k) then hs.map (fun p => if p.1 = k then (k, v) else p)
  else hs ++ [(k, v)]

/-- Look a key up in a header association list (`""` when absent). -/
def getHeaderList (hs : List (String × String)) (k : String) : String :=
  match hs.find? (fun p => p.1 = k) with
  | some p => p.2
  | none => ""

/-- The observable state of an `http.ResponseWriter`: the header map,
the status code once written, and the body bytes written so far. -/
structure RW where
  headers : List (String × String)
  status : Option Nat
  body : List Nat
deriving Repr, DecidableEq

/-- A fresh response writer: no headers, no status, empty body. -/
def RW.init : RW := ⟨[], none, []⟩

/-- `writer.Header().Set(k, v)`. -/
def RW.setHeader (w : RW) (k v : String) : RW :=
  { w with headers := setHeaderList w.headers k v }

/-- `writer.WriteHeader(code)`: net/http writes the status only once; a
second call is ignored as superfluous. -/
def RW.writeHeaderOp (w : RW) (code : Nat) : RW :=
  match w.status with
  | some _ => w
  | none => { w with status := some code }

/-- `writer.Write(bs)`: an implicit `WriteHeader(200)` happens if no
status was written yet; the bytes are appended and the count returned
(net/http returns `len(bs)` on success). -/
def RW.writeOp (w : RW) (bs : List Nat) : RW × Nat :=
  let w' := match w.status with
    | none => { w with status := some 200 }
    | some _ => w
  ({ w' with body := w'.body ++ bs }, bs.length)

/-- One operation a handler performs on its `http.ResponseWriter`. -/
inductive HOp where
  | header (k v : String)
  | write (bs : List Nat)
  | writeHeader (code : Nat)
deriving Repr, DecidableEq

/-- Whether the operation is an explicit `WriteHeader` call. -/
def HOp.isWriteHeader : HOp → Bool
  | .writeHeader _ => true
  | _ => false

/-- Apply one handler operation to the writer state. -/
def applyOp (w : RW) (op : HOp) : RW :=
  match op with
  | .header k v => w.setHeader k v
  | .write bs => (w.writeOp bs).1
  | .writeHeader c => w.writeHeaderOp c

/-- Run a handler (its operation trace) against a writer state. -/
def applyOps (w : RW) (ops : List HOp) : RW := ops.foldl applyOp w

/-- ASCII string to its byte sequence (all literals used here are ASCII,
so the UTF-8 bytes are the code points). -/
def asciiBytes (s : String) : List Nat := s.toList.map Char.toNat

/-- The `/healthz` handler from `main.go`: reject non-GET with 405,
otherwise set `Content-Type: text/plain; charset=utf-8` and write the
fixed body. It never looks at the snapshot. -/
def healthzOps (req : Request) : List HOp :=
  if req.method ≠ "GET" then [.writeHeader 405]
  else [.header "Content-Type" "text/plain; charset=utf-8",
        .write (asciiBytes "healthz check passed")]

/-- The `/favicon.ico` handler from `main.go`: reject non-GET with 405,
otherwise respond 404 with no body. -/
def faviconOps (req : Request) : List HOp :=
  if req.method ≠ "GET" then [.writeHeader 405]
  else [.writeHeader 404]

/-- The `/default.css` handler from `main.go` (registered only when a
local css file was configured): reject non-GET with 405, otherwise set
`Content-Type: text/css; charset=utf-8` and write the raw css bytes. -/
def cssOps (rawCss : List Nat) (req : Request) : List HOp :=
  if req.method ≠ "GET" then [.writeHeader 405]
  else [.header "Content-Type" "text/css; charset=utf-8", .write rawCss]

/-- The `/` handler from `main.go`, the conditional-GET state machine:
405 on non-GET; 412 when `If-Match` is present, non-empty and differs
from `hashString`; else 304 with `Content-Length`/`Content-Type` headers
and no body when `If-None-Match` is present, non-empty and equals
`hashString`; else 200 with `Etag`, `Content-Type` and the full body. -/
def rootOps (htmlContent : List Nat) (hashString : String) (req : Request) : List HOp :=
  if req.method ≠ "GET" then [.writeHeader 405]
  else if req.get "If-Match" ≠ "" ∧ req.get "If-Match" ≠ hashString then
    [.writeHeader 412]
  else if req.get "If-None-Match" ≠ "" ∧ req.get "If-None-Match" = hashString then
    [.header "Content-Length" (toString htmlContent.length),
     .header "Content-Type" "text/html; charset=utf-8",
     .writeHeader 304]
  else
    [.header "Etag" hashString,
     .header "Content-Type" "text/html; charset=utf-8",
     .write htmlContent]

/-- Split a character list on `/` (keeping empty segments, as
`strings.Split` would). -/
def splitSlash : List Char → List (List Char)
  | [] => [[]]
  | c :: rest =>
      let r := splitSlash rest
      if c = '/' then [] :: r
      else
        match r with
        | [] => [[c]]
        | s :: ss => (c :: s) :: ss

/-- Join segments back with `/` separators. -/
def joinSlash : List (List Char) → List Char
  | [] => []
  | [s] => s
  | s :: ss => s ++ '/' :: joinSlash ss

/-- `net/http.cleanPath`: returns the canonical form of the URL path —
a leading `/` is added if missing, then `path.Clean` drops empty and
`.` elements and resolves `..` (never above the root), and a trailing
`/` is restored when the input ended in one and the result is not the
root. -/
def cleanPath (p : String) : String :=
  if p = "" then "/"
  else
    let cs := p.toList
    let cs := if cs.headD ' ' = '/' then cs else '/' :: cs
    let segs := (splitSlash cs).foldl (fun acc seg =>
      if seg = [] ∨ seg = ['.'] then acc
      else if seg = ['.', '.'] then acc.dropLast
      else acc ++ [seg]) []
    let np := '/' :: joinSlash segs
    if cs.getLastD ' ' = '/' ∧ segs ≠ [] then String.mk (np ++ ['/'])
    else String.mk np

/-- `net/http`'s html escaping of a redirect target: `&`, `<`, `>`,
double quote and apostrophe become entities. -/
def htmlEscape (s : String) : String :=
  String.join (s.toList.map (fun c =>
    if c = '&' then "&amp;"
    else if c = '<' then "&lt;"
    else if c = '>' then "&gt;"
    else if c = '"' then "&#34;"
    else if c = '\'' then "&#39;"
    else String.mk [c]))

/-- `http.RedirectHandler(url, 301)` serving a request, i.e.
`http.Redirect` on a fresh response (no `Content-Type` set yet, so the
`hadCT` check is false): set `Location` (the target is ASCII here, so
`hexEscapeNonASCII` is the identity); for a GET also set
`Content-Type: text/html; charset=utf-8`; write the 301 status; and
for a GET print the short html note plus the `Fprintln` newline. -/
def redirectOps (url : String) (req : Request) : List HOp :=
  if req.method = "GET" then
    [.header "Location" url,
     .header "Content-Type" "text/html; charset=utf-8",
     .writeHeader 301,
     .write (asciiBytes ("<a href=\"" ++ htmlEscape url ++ "\">Moved Permanently</a>.\n\n"))]
  else
    [.header "Location" url, .writeHeader 301]

/-- `http.ServeMux` dispatch over the patterns registered in `run`.
Per `ServeMux.Handler`, a non-CONNECT request whose path is not in
canonical form is answered by a 301 redirect to the cleaned path and
never reaches a registered handler (the `/tree`→`/tree/` redirect can
never fire here: the only slash-ended pattern is `/` itself). A
canonical path is matched against the exact patterns `/healthz`,
`/favicon.ico`, and `/default.css` when a css asset was configured;
the rooted-subtree pattern `/` matches every remaining path. -/
def muxOps (cssConfigured : Bool) (rawCss htmlContent : List Nat) (hashString : String)
    (req : Request) : List HOp :=
  if req.method ≠ "CONNECT" ∧ cleanPath req.path ≠ req.path then
    redirectOps (cleanPath req.path) req
  else if req.path = "/healthz" then healthzOps req
  else if req.path = "/favicon.ico" then faviconOps req
  else if cssConfigured ∧ req.path = "/default.css" then cssOps rawCss req
  else rootOps htmlContent hashString req

/-! ## SHA-256 (`crypto/sha256.Sum256`) and Go's `%x` hex encoding -/

/-- Truncate to a 32-bit word. -/
def w32 (n : Nat) : Nat := n % 4294967296

/-- Rotate a 32-bit word right by `n` bits. -/
def rotr (n x : Nat) : Nat := w32 ((x >>> n) ||| (x <<< (32 - n)))

/-- The 64 SHA-256 round constants (FIPS 180-4, in decimal). -/
def sha256K : List Nat :=
  [1116352408, 1899447441, 3049323471, 3921009573, 961987163,
   1508970993, 2453635748, 2870763221, 3624381080, 310598401,
   607225278, 1426881987, 1925078388, 2162078206, 2614888103,
   3248222580, 3835390401, 4022224774, 264347078, 604807628,
   770255983, 1249150122, 1555081692, 1996064986, 2554220882,
   2821834349, 2952996808, 3210313671, 3336571891, 3584528711,
   113926993, 338241895, 666307205, 773529912, 1294757372,
   1396182291, 1695183700, 1986661051, 2177026350, 2456956037,
   2730485921, 2820302411, 3259730800, 3345764771, 3516065817,
   3600352804, 4094571909, 275423344, 430227734, 506948616,
   659060556, 883997877, 958139571, 1322822218, 1537002063,
   1747873779, 1955562222, 2024104815, 2227730452, 2361852424,
   2428436474, 2756734187, 3204031479, 3329325298]

/-- The SHA-256 initial hash value (FIPS 180-4, in decimal). -/
def sha256Init : List Nat :=
  [1779033703, 3144134277, 1013904242, 2773480762,
   1359893119, 2600822924, 528734635, 1541459225]

/-- Big-endian 4-byte groups to 32-bit words. -/
def bytesToWords : List Nat → List Nat
  | b0 :: b1 :: b2 :: b3 :: rest =>
      (b0 * 16777216 + b1 * 65536 + b2 * 256 + b3) :: bytesToWords rest
  | _ => []

/-- Extend 16 message words to the 64-word schedule. -/
def sha256Schedule (ws : List Nat) : List Nat :=
  (List.range 48).foldl (fun acc _ =>
    let n := acc.length
    let w15 := acc.getD (n - 15) 0
    let w2 := acc.getD (n - 2) 0
    let s0 := (rotr 7 w15) ^^^ (rotr 18 w15) ^^^ (w15 >>> 3)
    let s1 := (rotr 17 w2) ^^^ (rotr 19 w2) ^^^ (w2 >>> 10)
    acc ++ [w32 (acc.getD (n - 16) 0 + s0 + acc.getD (n - 7) 0 + s1)]) ws

/-- One SHA-256 compression round. -/
def sha256Round (ws : List Nat) (st : List Nat) (i : Nat) : List Nat :=
  let a := st.getD 0 0
  let b := st.getD 1 0
  let c := st.getD 2 0
  let d := st.getD 3 0
  let e := st.getD 4 0
  let f := st.getD 5 0
  let g := st.getD 6 0
  let hh := st.getD 7 0
  let S1 := (rotr 6 e) ^^^ (rotr 11 e) ^^^ (rotr 25 e)
  let ch := (e &&& f) ^^^ ((e ^^^ 0xffffffff) &&& g)
  let temp1 := w32 (hh + S1 + ch + sha256K.getD i 0 + ws.getD i 0)
  let S0 := (rotr 2 a) ^^^ (rotr 13 a) ^^^ (rotr 22 a)
  let maj := (a &&& b) ^^^ (a &&& c) ^^^ (b &&& c)
  let temp2 := w32 (S0 + maj)
  [w32 (temp1 + temp2), a, b, c, w32 (d + temp1), e, f, g]

/-- Compress one 64-byte block into the hash state (8 words). -/
def sha256Compress (h : List Nat) (block : List Nat) : List Nat :=
  let ws := sha256Schedule (bytesToWords block)
  let st := (List.range 64).foldl (sha256Round ws) h
  (List.zip h st).map (fun p => w32 (p.1 + p.2))

/-- Fold the padded message, 64 bytes at a time, through compression;
`n` is the number of 64-byte blocks (the padding step below always
produces a message whose length is an exact multiple of 64). -/
def sha256Chunks : Nat → List Nat → List Nat → List Nat
  | 0, _, h => h
  | n + 1, bs, h => sha256Chunks n (bs.drop 64) (sha256Compress h (bs.take 64))

/-- A 32-bit word as 4 big-endian bytes. -/
def wordBytes (w : Nat) : List Nat :=
  [(w >>> 24) % 256, (w >>> 16) % 256, (w >>> 8) % 256, w % 256]

/-- `crypto/sha256.Sum256`: pad the message (0x80, zeros, 64-bit
big-endian bit length) and compress; 32 digest bytes. -/
def sha256Sum (msg : List Nat) : List Nat :=
  let len := msg.length
  let zeros := (119 - len % 64) % 64
  let lenBytes := (List.range 8).map (fun i => ((len * 8) >>> (8 * (7 - i))) % 256)
  let padded := msg.map (· % 256) ++ [0x80] ++ List.replicate zeros 0 ++ lenBytes
  (sha256Chunks (padded.length / 64) padded sha256Init).foldr (fun w acc => wordBytes w ++ acc) []

/-- One lowercase hex digit. -/
def hexDigit (n : Nat) : Char :=
  if n < 10 then Char.ofNat (48 + n) else Char.ofNat (87 + n)

/-- Go's `%x` of a byte array: two lowercase hex digits per byte. -/
def hexEncode (bs : List Nat) : String :=
  String.mk (bs.foldr (fun b acc => hexDigit ((b / 16) % 16) :: hexDigit (b % 16) :: acc) [])

/-- `hashString := fmt.Sprintf("%x", sha256.Sum256(htmlContent))` from
`main.go` line 213: the hex-encoded SHA-256 of the rendered html. -/
def fingerprint (htmlContent : List Nat) : String := hexEncode (sha256Sum htmlContent)

/-- The response of the server for one request: mux dispatch with
`hashString = fingerprint htmlContent`, run against a fresh writer. -/
def mdResponse (cssConfigured : Bool) (rawCss htmlContent : List Nat) (req : Request) : RW :=
  applyOps RW.init (muxOps cssConfigured rawCss htmlContent (fingerprint htmlContent) req)

/-! ## The `responseRecorder` wrapper -/

/-- The mutable fields of `responseRecorder`: cumulative bytes written
and the last status code set. -/
structure Recorder where
  written : Nat
  statusCode : Nat
deriving Repr, DecidableEq

/-- `&responseRecorder{Inner: writer, StatusCode: http.StatusOK}` from
`run`: `Written` starts at 0 (zero value) and `StatusCode` at 200. -/
def Recorder.init : Recorder := ⟨0, 200⟩

/-- One handler operation performed through the recorder:
`Header()` returns the inner writer's map, so a header set goes straight
to the inner writer; `Write` forwards to the inner writer, adds the
count the inner writer returned to `Written`, and returns that same
count; `WriteHeader` stores the code and forwards it. -/
def recApplyOp : RW × Recorder → HOp → RW × Recorder
  | (w, r), .header k v => (w.setHeader k v, r)
  | (w, r), .write bs =>
      let res := w.writeOp bs
      (res.1, { r with written := r.written + res.2 })
  | (w, r), .writeHeader c => (w.writeHeaderOp c, { r with statusCode := c })

/-- Run a handler trace through the recorder-wrapped writer. -/
def recApplyOps (s : RW × Recorder) (ops : List HOp) : RW × Recorder :=
  ops.foldl recApplyOp s

/-- Total number of body bytes a trace writes (the counts the inner
writer returns). -/
def sumWrites (ops : List HOp) : Nat :=
  (ops.map fun op => match op with | .write bs => bs.length | _ => 0).sum

/-- The status the recorder holds after a trace: the argument of the
last explicit `WriteHeader`, or the initial value when there is none. -/
def finalStatus (s0 : Nat) (ops : List HOp) : Nat :=
  ops.foldl (fun s op => match op with | .writeHeader c => c | _ => s) s0

/-- The per-request structured log event emitted after the handler
completes: method, request URI, recorded status, recorded bytes. -/
structure LogEvent where
  method : String
  uri : String
  status : Nat
  bytes : Nat
deriving Repr, DecidableEq

/-- The server's per-request logging (`run` lines 235-239): run the mux
through a fresh recorder and emit one log event from its fields. -/
def serveWithLog (cssConfigured : Bool) (rawCss htmlContent : List Nat) (req : Request) :
    RW × LogEvent :=
  let s := recApplyOps (RW.init, Recorder.init)
    (muxOps cssConfigured rawCss htmlContent (fingerprint htmlContent) req)
  (s.1, ⟨req.method, req.path, s.2.statusCode, s.2.written⟩)

/-! ## `parse` / `main`: configuration-error flow -/

/-- The error values that matter to `main`'s exit decision:
`http.ErrServerClosed` is the sentinel that `parse` returns for bad
usage and that a graceful shutdown produces; anything else is carried
as `other`. -/
inductive GoError where
  | serverClosed
  | other (msg : String)
deriving Repr, DecidableEq

/-- Outcome of `parse` (`main.go` lines 115-135) after flag parsing:
`nArgs` is `fs.NArg()` and `listenOk` states whether
`netip.ParseAddrPort` accepted the `-listen` value (that parser is
stdlib, modelled by its verdict).  A wrong argument count prints a
message and the usage text and returns `http.ErrServerClosed`; an
invalid listen address prints a message and the usage text and returns
`http.ErrServerClosed`; otherwise `parse` succeeds. -/
structure ParseOutcome where
  errPrinted : Bool
  usagePrinted : Bool
  err : Option GoError
deriving Repr, DecidableEq

/-- `parse`'s decision logic on the argument count and listen address. -/
def parseCheck (nArgs : Nat) (listenOk : Bool) : ParseOutcome :=
  if nArgs ≠ 1 then ⟨true, true, some .serverClosed⟩
  else if ¬listenOk then ⟨true, true, some .serverClosed⟩
  else ⟨false, false, none⟩

/-- What the process does for a given `parse` outcome, from
`mainInner` (return on parse error, before any server is created) and
`main` (`os.Exit(1)` only when the error is non-nil and is not
`http.ErrServerClosed`; otherwise the process ends with status 0). -/
structure RunOutcome where
  listenerStarted : Bool
  exitCode : Nat
  errPrinted : Bool
  usagePrinted : Bool
deriving Repr, DecidableEq

/-- The `main`/`mainInner` flow for the configuration phase: when
`parse` fails, no listener ever starts and the exit code is 1 exactly
when the error is not the `http.ErrServerClosed` sentinel. When `parse`
succeeds the server starts (its eventual exit is out of scope here,
marked exit code 0). -/
def mainConfigFlow (nArgs : Nat) (listenOk : Bool) : RunOutcome :=
  let p := parseCheck nArgs listenOk
  match p.err with
  | some e => ⟨false, if e ≠ .serverClosed then 1 else 0, p.errPrinted, p.usagePrinted⟩
  | none => ⟨true, 0, p.errPrinted, p.usagePrinted⟩

/-! ## Helper lemmas -/

set_option maxRecDepth 10000 in
/-- The fingerprint of the empty byte sequence (the SHA-256 test vector
for the empty message), shared by the witnesses below. -/
theorem fingerprint_nil :
    fingerprint [] = "e3b0c44298fc1c149afbf4c8996fb92427ae41e4649b934ca495991b7852b855" := by
  decide

/-- Running a trace through the recorder yields exactly the inner state
the bare writer would have, the initial byte count plus the bytes the
inner writer accepted, and the last explicitly written status. -/
theorem recApplyOps_eq (ops : List HOp) : ∀ w r,
    recApplyOps (w, r) ops =
      (applyOps w ops, ⟨r.written + sumWrites ops, finalStatus r.statusCode ops⟩) := by
  induction ops with
  | nil => intro w r; simp [recApplyOps, applyOps, sumWrites, finalStatus]
  | cons op ops ih =>
    intro w r
    cases op with
    | header k v =>
        simpa [recApplyOps, applyOps, sumWrites, finalStatus, recApplyOp, applyOp]
          using ih (w.setHeader k v) r
    | write bs =>
        have := ih (w.writeOp bs).1 ⟨r.written + (w.writeOp bs).2, r.statusCode⟩
        simpa [recApplyOps, applyOps, sumWrites, finalStatus, recApplyOp, applyOp,
          RW.writeOp, Nat.add_assoc] using this
    | writeHeader c =>
        simpa [recApplyOps, applyOps, sumWrites, finalStatus, recApplyOp, applyOp]
          using ih (w.writeHeaderOp c) ⟨r.written, c⟩

/-- A trace with no explicit `WriteHeader` leaves the recorded status
at its initial value. -/
theorem finalStatus_of_no_writeHeader (ops : List HOp) :
    ∀ s0, (∀ op ∈ ops, op.isWriteHeader = false) → finalStatus s0 ops = s0 := by
  induction ops with
  | nil => intro s0 _; rfl
  | cons op ops ih =>
    intro s0 h
    cases op with
    | header k v => exact ih s0 (fun op hop => h op (List.mem_cons_of_mem _ hop))
    | write bs => exact ih s0 (fun op hop => h op (List.mem_cons_of_mem _ hop))
    | writeHeader c =>
        have := h _ (List.mem_cons_self _ _)
        simp [HOp.isWriteHeader] at this

/-- The registered paths are already canonical, so the mux's clean-path
redirect never fires for them: the root path is a `cleanPath` fixpoint. -/
theorem cleanPath_root : cleanPath "/" = "/" := by decide

/-- `/healthz` is a `cleanPath` fixpoint. -/
theorem cleanPath_healthz : cleanPath "/healthz" = "/healthz" := by decide

/-- `/favicon.ico` is a `cleanPath` fixpoint. -/
theorem cleanPath_favicon : cleanPath "/favicon.ico" = "/favicon.ico" := by decide

/-- `/default.css` is a `cleanPath` fixpoint. -/
theorem cleanPath_defaultcss : cleanPath "/default.css" = "/default.css" := by decide

/-! ## Claims -/

/-- C1: for every GET request to `/` whose `If-Match` header is present,
non-empty and not equal to the snapshot fingerprint, the handler
responds 412 and writes no body — whatever the `If-None-Match` header
says, since `If-Match` is evaluated first. -/
theorem ifMatch_mismatch_gives_412 (cssConfigured : Bool) (rawCss htmlContent : List Nat)
    (req : Request) (hm : req.method = "GET") (hp : req.path = "/")
    (h1 : req.get "If-Match" ≠ "") (h2 : req.get "If-Match" ≠ fingerprint htmlContent) :
    (mdResponse cssConfigured rawCss htmlContent req).status = some 412 ∧
    (mdResponse cssConfigured rawCss htmlContent req).body = [] := by
  have h : mdResponse cssConfigured rawCss htmlContent req = ⟨[], some 412, []⟩ := by
    unfold mdResponse muxOps rootOps
    rw [hp, hm]
    simp [cleanPath_root, h1, h2, applyOps, applyOp, RW.writeHeaderOp, RW.init]
  rw [h]
  exact ⟨rfl, rfl⟩

/-- C1 witness: with the empty document, `If-Match: nope` and an
`If-None-Match` equal to the true fingerprint, the response is still
412 with no body. -/
theorem ifMatch_mismatch_gives_412_witness :
    (mdResponse false [] []
      ⟨"GET", "/",
        [("If-Match", "nope"),
         ("If-None-Match", "e3b0c44298fc1c149afbf4c8996fb92427ae41e4649b934ca495991b7852b855")]⟩).status
      = some 412 ∧
    (mdResponse false [] []
      ⟨"GET", "/",
        [("If-Match", "nope"),
         ("If-None-Match", "e3b0c44298fc1c149afbf4c8996fb92427ae41e4649b934ca495991b7852b855")]⟩).body
      = [] :=
  ifMatch_mismatch_gives_412 false [] [] _ rfl rfl (by decide)
    (by rw [fingerprint_nil]; decide)

/-- C2: for every GET request to `/` in which `If-Match` is absent,
empty or equal to the fingerprint, and `If-None-Match` is present,
non-empty and equal to the fingerprint, the handler responds 304, sets
`Content-Length` to the byte length of the html and `Content-Type` to
`text/html; charset=utf-8`, and writes no body bytes. -/
theorem ifNoneMatch_match_gives_304 (cssConfigured : Bool) (rawCss htmlContent : List Nat)
    (req : Request) (hm : req.method = "GET") (hp : req.path = "/")
    (him : req.get "If-Match" = "" ∨ req.get "If-Match" = fingerprint htmlContent)
    (hn1 : req.get "If-None-Match" ≠ "")
    (hn2 : req.get "If-None-Match" = fingerprint htmlContent) :
    (mdResponse cssConfigured rawCss htmlContent req).status = some 304 ∧
    getHeaderList (mdResponse cssConfigured rawCss htmlContent req).headers "Content-Length"
      = toString htmlContent.length ∧
    getHeaderList (mdResponse cssConfigured rawCss htmlContent req).headers "Content-Type"
      = "text/html; charset=utf-8" ∧
    (mdResponse cssConfigured rawCss htmlContent req).body = [] := by
  have h : mdResponse cssConfigured rawCss htmlContent req =
      ⟨[("Content-Length", toString htmlContent.length),
        ("Content-Type", "text/html; charset=utf-8")], some 304, []⟩ := by
    have hfp : fingerprint htmlContent ≠ "" := hn2 ▸ hn1
    unfold mdResponse muxOps rootOps
    rw [hp, hm]
    rcases him with him | him <;>
      simp [cleanPath_root, him, hn1, hn2, hfp, applyOps, applyOp, RW.writeHeaderOp,
        RW.setHeader, RW.init, setHeaderList]
  rw [h]
  refine ⟨rfl, ?_, ?_, rfl⟩ <;> simp [getHeaderList]

/-- C2 witness: with the empty document and `If-None-Match` equal to
the true fingerprint, the response is 304 with both headers and an
empty body. -/
theorem ifNoneMatch_match_gives_304_witness :
    (mdResponse false [] []
      ⟨"GET", "/",
        [("If-None-Match", "e3b0c44298fc1c149afbf4c8996fb92427ae41e4649b934ca495991b7852b855")]⟩).status
      = some 304 ∧
    getHeaderList (mdResponse false [] []
      ⟨"GET", "/",
        [("If-None-Match", "e3b0c44298fc1c149afbf4c8996fb92427ae41e4649b934ca495991b7852b855")]⟩).headers
      "Content-Length" = toString (List.length ([] : List Nat)) ∧
    getHeaderList (mdResponse false [] []
      ⟨"GET", "/",
        [("If-None-Match", "e3b0c44298fc1c149afbf4c8996fb92427ae41e4649b934ca495991b7852b855")]⟩).headers
      "Content-Type" = "text/html; charset=utf-8" ∧
    (mdResponse false [] []
      ⟨"GET", "/",
        [("If-None-Match", "e3b0c44298fc1c149afbf4c8996fb92427ae41e4649b934ca495991b7852b855")]⟩).body
      = [] :=
  ifNoneMatch_match_gives_304 false [] [] _ rfl rfl (Or.inl (by decide)) (by decide)
    (by rw [fingerprint_nil]; decide)

/-- C3: for every GET request to `/` in which neither conditional
branch fires, the handler responds 200 with
`Content-Type: text/html; charset=utf-8`, `Etag` equal to the
fingerprint, and the full html byte sequence as body. -/
theorem unconditional_get_gives_200 (cssConfigured : Bool) (rawCss htmlContent : List Nat)
    (req : Request) (hm : req.method = "GET") (hp : req.path = "/")
    (him : req.get "If-Match" = "" ∨ req.get "If-Match" = fingerprint htmlContent)
    (hn : req.get "If-None-Match" = "" ∨ req.get "If-None-Match" ≠ fingerprint htmlContent) :
    (mdResponse cssConfigured rawCss htmlContent req).status = some 200 ∧
    getHeaderList (mdResponse cssConfigured rawCss htmlContent req).headers "Content-Type"
      = "text/html; charset=utf-8" ∧
    getHeaderList (mdResponse cssConfigured rawCss htmlContent req).headers "Etag"
      = fingerprint htmlContent ∧
    (mdResponse cssConfigured rawCss htmlContent req).body = htmlContent := by
  have h : mdResponse cssConfigured rawCss htmlContent req =
      ⟨[("Etag", fingerprint htmlContent),
        ("Content-Type", "text/html; charset=utf-8")], some 200, htmlContent⟩ := by
    unfold mdResponse muxOps rootOps
    rw [hp, hm]
    rcases him with him | him <;> rcases hn with hn | hn <;>
      simp [cleanPath_root, him, hn, applyOps, applyOp, RW.writeHeaderOp, RW.setHeader,
        RW.writeOp, RW.init, setHeaderList]
  rw [h]
  refine ⟨rfl, ?_, ?_, rfl⟩ <;> simp [getHeaderList]

/-- C3 witness: a plain GET of `/` over the empty document yields 200,
the content type, the fingerprint as `Etag`, and the full body. -/
theorem unconditional_get_gives_200_witness :
    (mdResponse false [] [] ⟨"GET", "/", []⟩).status = some 200 ∧
    getHeaderList (mdResponse false [] [] ⟨"GET", "/", []⟩).headers "Content-Type"
      = "text/html; charset=utf-8" ∧
    getHeaderList (mdResponse false [] [] ⟨"GET", "/", []⟩).headers "Etag"
      = fingerprint [] ∧
    (mdResponse false [] [] ⟨"GET", "/", []⟩).body = [] :=
  unconditional_get_gives_200 false [] [] _ rfl rfl (Or.inl (by decide)) (Or.inl (by decide))

/-- C4 counterexample: the primary document pattern `/` is a rooted
subtree in `http.ServeMux`, so a GET for the unknown path `/unknown`
does not produce a 404 with no body — it is served by the document
handler with status 200 and the full body. -/
theorem unknown_path_served_by_root :
    (mdResponse false [] [7] ⟨"GET", "/unknown", []⟩).status = some 200 ∧
    (mdResponse false [] [7] ⟨"GET", "/unknown", []⟩).body = [7] ∧
    (mdResponse false [] [7] ⟨"GET", "/unknown", []⟩).status ≠ some 404 := by
  decide

/-- C4 amended: every request to a registered path (`/`, `/healthz`,
`/favicon.ico`, `/default.css`) with a method other than GET receives
405 with no body (registered paths are canonical, so the mux's
clean-path redirect never fires for them, and each registered handler
checks the method first); and a request whose canonical path is none
of the registered exact patterns falls through to the primary document
handler (the `/` pattern matches every remaining path), rather than
receiving a 404. -/
theorem non_get_405_and_subtree_fallthrough (cssConfigured : Bool)
    (rawCss htmlContent : List Nat) (req : Request) :
    (req.method ≠ "GET" →
      (req.path = "/" ∨ req.path = "/healthz" ∨ req.path = "/favicon.ico" ∨
        req.path = "/default.css") →
      (mdResponse cssConfigured rawCss htmlContent req).status = some 405 ∧
      (mdResponse cssConfigured rawCss htmlContent req).body = []) ∧
    (cleanPath req.path = req.path → req.path ≠ "/healthz" → req.path ≠ "/favicon.ico" →
      req.path ≠ "/default.css" →
      mdResponse cssConfigured rawCss htmlContent req
        = applyOps RW.init (rootOps htmlContent (fingerprint htmlContent) req)) := by
  constructor
  · intro hm hpath
    have h : mdResponse cssConfigured rawCss htmlContent req = ⟨[], some 405, []⟩ := by
      unfold mdResponse muxOps
      rcases hpath with hp | hp | hp | hp <;> rw [hp] <;> cases cssConfigured <;>
        simp [cleanPath_root, cleanPath_healthz, cleanPath_favicon, cleanPath_defaultcss,
          healthzOps, faviconOps, cssOps, rootOps, hm, applyOps, applyOp,
          RW.writeHeaderOp, RW.init]
    rw [h]
    exact ⟨rfl, rfl⟩
  · intro hcanon h1 h2 h3
    unfold mdResponse muxOps
    simp [hcanon, h1, h2, h3]

/-- C4 witness: a POST to the registered path `/healthz` gets 405 with
no body, and a GET for the canonical unmatched path `/nope` is handled
by the primary document handler. -/
theorem non_get_405_and_subtree_fallthrough_witness :
    ((mdResponse true [1] [2] ⟨"POST", "/healthz", []⟩).status = some 405 ∧
     (mdResponse true [1] [2] ⟨"POST", "/healthz", []⟩).body = []) ∧
    mdResponse true [1] [2] ⟨"GET", "/nope", []⟩
      = applyOps RW.init (rootOps [2] (fingerprint [2]) ⟨"GET", "/nope", []⟩) :=
  ⟨(non_get_405_and_subtree_fallthrough true [1] [2] ⟨"POST", "/healthz", []⟩).1
      (by decide) (Or.inr (Or.inl rfl)),
   (non_get_405_and_subtree_fallthrough true [1] [2] ⟨"GET", "/nope", []⟩).2
     (by decide) (by decide) (by decide) (by decide)⟩

/-- C5: evaluating the code at the failing input — a GET for
`/favicon.ico` with no favicon asset configured answers 404 with no
body, not the 307 redirect to a baked-in default asset route that the
spec, the repository README (`-favicon` option) and the favicon test
demand. -/
theorem favicon_get_gives_404 :
    (mdResponse false [] [] ⟨"GET", "/favicon.ico", []⟩).status = some 404 ∧
    (mdResponse false [] [] ⟨"GET", "/favicon.ico", []⟩).body = [] := by
  decide

/-- C6 counterexample: with no positional argument (`fs.NArg() = 0`)
the usage text and an error message are printed and no listener starts,
but the process exit status is 0 — `parse` returns the
`http.ErrServerClosed` sentinel, which `main` excludes from its
`os.Exit(1)` path — refuting the claimed non-zero exit. -/
theorem missing_arg_exits_zero :
    (mainConfigFlow 0 true).usagePrinted = true ∧
    (mainConfigFlow 0 true).errPrinted = true ∧
    (mainConfigFlow 0 true).listenerStarted = false ∧
    ¬(mainConfigFlow 0 true).exitCode ≠ 0 := by
  decide

/-- C6 amended: for every configuration error detected at argument
parsing (wrong positional argument count or invalid listen address),
the error is reported and usage text printed before any listener
starts, and the process exits with status 0 (not non-zero), because
`parse` returns the `http.ErrServerClosed` sentinel that `main` treats
as a normal shutdown. -/
theorem config_error_reported_but_exit_zero (nArgs : Nat) (listenOk : Bool)
    (h : nArgs ≠ 1 ∨ listenOk = false) :
    (mainConfigFlow nArgs listenOk).errPrinted = true ∧
    (mainConfigFlow nArgs listenOk).usagePrinted = true ∧
    (mainConfigFlow nArgs listenOk).listenerStarted = false ∧
    (mainConfigFlow nArgs listenOk).exitCode = 0 := by
  by_cases h1 : nArgs = 1
  · rcases h with h | h
    · exact absurd h1 h
    · subst h
      simp [mainConfigFlow, parseCheck, h1]
  · simp [mainConfigFlow, parseCheck, h1]

/-- C6 witness: the missing-argument case at `nArgs = 0`. -/
theorem config_error_reported_but_exit_zero_witness :
    (mainConfigFlow 0 true).errPrinted = true ∧
    (mainConfigFlow 0 true).usagePrinted = true ∧
    (mainConfigFlow 0 true).listenerStarted = false ∧
    (mainConfigFlow 0 true).exitCode = 0 :=
  config_error_reported_but_exit_zero 0 true (Or.inl (by decide))

/-- C7: the fingerprint is a pure deterministic function of the
rendered html bytes — byte-identical html always yields the identical
fingerprint, and that fingerprint is exactly the hex-encoded SHA-256 of
the html; no other input (randomness, timestamp) enters `fingerprint`'s
definition. -/
theorem fingerprint_deterministic (b1 b2 : List Nat) (h : b1 = b2) :
    fingerprint b1 = fingerprint b2 ∧ fingerprint b1 = hexEncode (sha256Sum b1) :=
  ⟨by rw [h], rfl⟩

/-- C7 witness: the empty document. -/
theorem fingerprint_deterministic_witness :
    fingerprint [] = fingerprint [] ∧ fingerprint [] = hexEncode (sha256Sum []) :=
  fingerprint_deterministic [] [] rfl

/-- C8: every GET request to `/healthz` answers 200 with
`Content-Type: text/plain; charset=utf-8` and body exactly
`healthz check passed`, for every snapshot (any html, any css
configuration). -/
theorem healthz_fixed_response (cssConfigured : Bool) (rawCss htmlContent : List Nat)
    (req : Request) (hp : req.path = "/healthz") (hm : req.method = "GET") :
    (mdResponse cssConfigured rawCss htmlContent req).status = some 200 ∧
    getHeaderList (mdResponse cssConfigured rawCss htmlContent req).headers "Content-Type"
      = "text/plain; charset=utf-8" ∧
    (mdResponse cssConfigured rawCss htmlContent req).body
      = asciiBytes "healthz check passed" := by
  have h : mdResponse cssConfigured rawCss htmlContent req =
      ⟨[("Content-Type", "text/plain; charset=utf-8")], some 200,
        asciiBytes "healthz check passed"⟩ := by
    unfold mdResponse muxOps healthzOps
    rw [hp, hm]
    simp [cleanPath_healthz, applyOps, applyOp, RW.setHeader, RW.writeOp, RW.init,
      setHeaderList]
  rw [h]
  exact ⟨rfl, by simp [getHeaderList], rfl⟩

/-- C8 witness: a GET of `/healthz` with a css asset configured and a
non-empty document. -/
theorem healthz_fixed_response_witness :
    (mdResponse true [3] [5] ⟨"GET", "/healthz", []⟩).status = some 200 ∧
    getHeaderList (mdResponse true [3] [5] ⟨"GET", "/healthz", []⟩).headers "Content-Type"
      = "text/plain; charset=utf-8" ∧
    (mdResponse true [3] [5] ⟨"GET", "/healthz", []⟩).body
      = asciiBytes "healthz check passed" :=
  healthz_fixed_response true [3] [5] ⟨"GET", "/healthz", []⟩ rfl rfl

/-- C9: the `responseRecorder` wrapper forwards every operation to the
inner writer unchanged — after any handler trace the inner writer state
(headers, status, body, and the per-write returned counts it produced)
is exactly what running the trace on the bare writer gives — while the
recorder itself only accumulates the byte counts the inner writer
returned and the last explicitly written status code. -/
theorem recorder_forwards_and_records (ops : List HOp) (w : RW) (r : Recorder) :
    (recApplyOps (w, r) ops).1 = applyOps w ops ∧
    (recApplyOps (w, r) ops).2.written = r.written + sumWrites ops ∧
    (recApplyOps (w, r) ops).2.statusCode = finalStatus r.statusCode ops := by
  rw [recApplyOps_eq]
  exact ⟨rfl, rfl, rfl⟩

/-- C10: when the handler trace for a request contains no explicit
`WriteHeader` call (it may write body bytes, which set the real status
implicitly), the per-request log event reports status 200: the recorder
is constructed with `StatusCode: http.StatusOK` and updates it only on
an explicit `WriteHeader`. -/
theorem implicit_status_logged_200 (cssConfigured : Bool) (rawCss htmlContent : List Nat)
    (req : Request)
    (h : ∀ op ∈ muxOps cssConfigured rawCss htmlContent (fingerprint htmlContent) req,
      op.isWriteHeader = false) :
    (serveWithLog cssConfigured rawCss htmlContent req).2.status = 200 := by
  have e := recApplyOps_eq
    (muxOps cssConfigured rawCss htmlContent (fingerprint htmlContent) req) RW.init Recorder.init
  simp only [serveWithLog, e]
  exact finalStatus_of_no_writeHeader _ 200 h

/-- C10 witness: the `/healthz` trace writes a body and never calls
`WriteHeader`, and its log event reports status 200. -/
theorem implicit_status_logged_200_witness :
    (serveWithLog true [3] [5] ⟨"GET", "/healthz", []⟩).2.status = 200 :=
  implicit_status_logged_200 true [3] [5] ⟨"GET", "/healthz", []⟩ (by decide)
